import Mathlib

/-
Verification of the client-side tracking reconciliation core of
src/frontend/src/ShipmentMap.js.

Shallow embedding conventions:
  * JavaScript values are modelled by the inductive `JVal`; JavaScript
    numbers are exact rationals plus the non-finite values NaN and
    (plus or minus) Infinity, modelled by `JNum`.  All payloads reaching
    this component come from JSON, which cannot carry NaN or Infinity.
  * Field access `x.f` is `getProp` when the receiver cannot be
    null/undefined, and `jsFieldE` (which can fail, modelling the thrown
    TypeError) where the receiver may be null/undefined.
  * React component state is the record `CompState`; each `fetchX`
    callback of the source becomes a state-update function
    `Response → CompState → CompState`, with a thrown-and-caught
    exception folded into the same final state the catch handler
    produces, exactly as in the source.
  * The render body (lines 144-206 of the source) becomes the pure
    function `render : CompState → Render`.
-/

namespace SmartFreight

/-- A JavaScript number: a finite (exact rational) value, NaN, or an
infinity.  JSON payloads only ever contain `fin` values. -/
inductive JNum where
  | fin (q : ℚ)
  | nan
  | inf
deriving DecidableEq

/-- A JavaScript value as far as this component observes them. -/
inductive JVal where
  | num (n : JNum)
  | str (s : String)
  | bool (b : Bool)
  | jnull
  | undefVal
  | arr (xs : List JVal)
  | obj (fields : List (String × JVal))

/-- JavaScript truthiness of a value. -/
def truthy : JVal → Bool
  | .num (.fin q) => q ≠ 0
  | .num .nan => false
  | .num .inf => true
  | .str s => s ≠ ""
  | .bool b => b
  | .jnull => false
  | .undefVal => false
  | .arr _ => true
  | .obj _ => true

/-- Property access `v.k` for a receiver that is not null/undefined:
objects look the key up (absent keys give undefined), primitives and
arrays have none of the accessed data properties, giving undefined. -/
def getProp : JVal → String → JVal
  | .obj fs, k => (fs.lookup k).getD .undefVal
  | _, _ => .undefVal

/-- Property access `v.k` that models the TypeError thrown when the
receiver is null or undefined. -/
def jsFieldE : JVal → String → Except Unit JVal
  | .jnull, _ => .error ()
  | .undefVal, _ => .error ()
  | v, k => .ok (getProp v k)

/-- Decimal digits to a natural number. -/
def digitsToNat (ds : List Char) : Nat :=
  ds.foldl (fun a c => a * 10 + (c.toNat - 48)) 0

/-- The optional exponent part accepted by parseFloat: e or E, an
optional sign, then digits; with no digits the exponent part is not
consumed and contributes a factor of one. -/
def parseExponent (cs : List Char) : Int :=
  match cs with
  | 'e' :: r => parseSignedDigits r
  | 'E' :: r => parseSignedDigits r
  | _ => 0
where
  parseSignedDigits (r : List Char) : Int :=
    let p : Int × List Char :=
      match r with
      | '+' :: rr => (1, rr)
      | '-' :: rr => (-1, rr)
      | _ => (1, r)
    let ds := (p.2.takeWhile (fun c => c.isDigit))
    if ds = [] then 0 else p.1 * (digitsToNat ds : Int)

/-- Core of JavaScript parseFloat on a whitespace-stripped character
list: optional sign, the literal Infinity, or decimal digits with an
optional fraction and exponent; no parsable prefix gives NaN. -/
def parseFloatCore (cs : List Char) : JNum :=
  let sp : ℚ × List Char :=
    match cs with
    | '+' :: r => (1, r)
    | '-' :: r => (-1, r)
    | _ => (1, cs)
  if sp.2.take 8 = "Infinity".data then .inf
  else
    let ip := sp.2.takeWhile (fun c => c.isDigit)
    let cs2 := sp.2.dropWhile (fun c => c.isDigit)
    let fr : List Char × List Char :=
      match cs2 with
      | '.' :: r => (r.takeWhile (fun c => c.isDigit), r.dropWhile (fun c => c.isDigit))
      | _ => ([], cs2)
    if ip = [] ∧ fr.1 = [] then .nan
    else
      let mant : ℚ := (digitsToNat ip : ℚ) + (digitsToNat fr.1 : ℚ) / ((10 : ℚ) ^ fr.1.length)
      .fin (sp.1 * mant * (10 : ℚ) ^ (parseExponent fr.2))

/-- JavaScript parseFloat, modelled exactly on decimal literals. -/
def parseFloat (s : String) : JNum :=
  parseFloatCore (s.data.dropWhile (fun c => c.isWhitespace))

/-- Lines 149-157 of the source: latitude extraction from the tracking
payload, trying CurrentLatitude, CurrentLat, latitude, Latitude as
numbers, then CurrentLatitude as a non-empty string via parseFloat,
defaulting to NaN. -/
def currentLatitude (td : JVal) : JNum :=
  match getProp td "CurrentLatitude" with
  | .num n => n
  | _ =>
  match getProp td "CurrentLat" with
  | .num n => n
  | _ =>
  match getProp td "latitude" with
  | .num n => n
  | _ =>
  match getProp td "Latitude" with
  | .num n => n
  | _ =>
  match getProp td "CurrentLatitude" with
  | .str s => if s = "" then .nan else parseFloat s
  | _ => .nan

/-- Lines 159-166 of the source: longitude extraction, trying
CurrentLongitude, CurrentLng, longitude, Longitude as numbers, then
CurrentLongitude as a non-empty string via parseFloat. -/
def currentLongitude (td : JVal) : JNum :=
  match getProp td "CurrentLongitude" with
  | .num n => n
  | _ =>
  match getProp td "CurrentLng" with
  | .num n => n
  | _ =>
  match getProp td "longitude" with
  | .num n => n
  | _ =>
  match getProp td "Longitude" with
  | .num n => n
  | _ =>
  match getProp td "CurrentLongitude" with
  | .str s => if s = "" then .nan else parseFloat s
  | _ => .nan

/-- The canonical position snapshot extracted from a tracking payload. -/
def posOf (td : JVal) : JNum × JNum :=
  (currentLatitude td, currentLongitude td)

/-- JavaScript `a || b`: the first operand when truthy, else the second. -/
def jsOr (a b : JVal) : JVal :=
  if truthy a then a else b

/-- Line 168 of the source: `trackingData.currentStatus || trackingData.current_state || trackingData.status || null`. -/
def currentStatusOf (td : JVal) : JVal :=
  jsOr (getProp td "currentStatus") (jsOr (getProp td "current_state") (jsOr (getProp td "status") .jnull))

/-- Line 169 of the source: `trackingData.estimatedDelivery || trackingData.estimated_delivery || null`. -/
def estimatedDeliveryOf (td : JVal) : JVal :=
  jsOr (getProp td "estimatedDelivery") (jsOr (getProp td "estimated_delivery") .jnull)

/-- JavaScript `s.includes(sub)` on strings. -/
def strIncludes (s sub : String) : Bool :=
  s.data.tails.any (fun t => sub.data.isPrefixOf t)

/-- An HTTP response as the component observes it: the status, the
content-type header with the `|| plain-empty-string` default already
applied, the body text, and the value the body parses to as JSON
(payload bodies in this model are well-formed JSON). -/
structure Response where
  status : Nat
  contentType : String
  body : String
  json : JVal

/-- Lines 21-33 of the source: `safeJson(response, defaultValue)`.
404 resolves to the default; any other non-2xx status rejects with the
body text (or a fixed message when the body is empty); a success whose
content-type does not include application/json rejects with the body
truncated to 200 characters; otherwise the parsed JSON is returned. -/
def safeJson (r : Response) (defaultValue : JVal) : Except String JVal :=
  if r.status = 404 then .ok defaultValue
  else if ¬ (200 ≤ r.status ∧ r.status ≤ 299) then
    .error (if r.body = "" then "Network response was not ok" else r.body)
  else if ¬ strIncludes r.contentType "application/json" then
    .error ("Expected JSON but got: " ++ r.body.take 200)
  else .ok r.json

/-- A route point as stored in simRoute/optRoute state: a two-element
position array, whose entries are arbitrary JavaScript values. -/
abbrev RoutePt := JVal × JVal

/-- The component state of ShipmentMap (lines 71-76 of the source). -/
structure CompState where
  trackingData : JVal
  loading : Bool
  error : Option String
  simRoute : List RoutePt
  optRoute : List RoutePt

/-- The initial component state: `useState(null)`, `useState(true)`,
`useState(null)`, `useState([])`, `useState([])`. -/
def initialState : CompState :=
  { trackingData := .jnull, loading := true, error := none, simRoute := [], optRoute := [] }

/-- Lines 83-93 of the source: the fetchData callback as a state
update, given the response its fetch resolved with. -/
def fetchDataUpdate (r : Response) (s : CompState) : CompState :=
  match safeJson r .jnull with
  | .ok d => { s with trackingData := d, loading := false }
  | .error m => { s with error := some m, loading := false }

/-- The default value `{ geometry: [] }` passed to safeJson by both
route fetchers. -/
def routeDefault : JVal :=
  .obj [("geometry", .arr [])]

/-- The expression `json && json.geometry ? json.geometry : []` shared
by both route fetchers (lines 99 and 111 of the source). -/
def geometryOf (json : JVal) : JVal :=
  if truthy json && truthy (getProp json "geometry") then getProp json "geometry" else .arr []

/-- `xs.map f` for a callback that can throw: the first thrown
exception aborts the whole map, as in JavaScript. -/
def tryMap (f : JVal → Except Unit RoutePt) : List JVal → Except Unit (List RoutePt)
  | [] => .ok []
  | x :: xs =>
    match f x, tryMap f xs with
    | .ok y, .ok ys => .ok (y :: ys)
    | .error u, _ => .error u
    | .ok _, .error u => .error u

/-- Line 101 of the source, per element:
`p => Array.isArray(p) ? [p[1], p[0]] : [p.lat, p.lng]`; property
access on a null/undefined element throws. -/
def simMapElem : JVal → Except Unit RoutePt
  | .arr xs => .ok (xs.getD 1 .undefVal, xs.getD 0 .undefVal)
  | .jnull => .error ()
  | .undefVal => .error ()
  | p => .ok (getProp p "lat", getProp p "lng")

/-- Lines 95-105 of the source: the simulated-route normalization
applied to the parsed JSON, with a thrown exception landing in the
catch handler that stores the empty route.  Mapping over a truthy
non-array geometry throws (no map method) and also yields the empty
route. -/
def simNormalize (json : JVal) : List RoutePt :=
  match geometryOf json with
  | .arr xs =>
    (match tryMap simMapElem xs with
     | .ok r => r
     | .error _ => [])
  | _ => []

/-- Array destructuring `[lon, lat] = e` of one element: arrays read
their first two entries, strings are iterable by characters, anything
else is not iterable and throws. -/
def destructure2 : JVal → Except Unit RoutePt
  | .arr xs => .ok (xs.getD 0 .undefVal, xs.getD 1 .undefVal)
  | .str s =>
    .ok ((s.data.get? 0).elim JVal.undefVal (fun c => .str (String.mk [c])),
         (s.data.get? 1).elim JVal.undefVal (fun c => .str (String.mk [c])))
  | _ => .error ()

/-- Line 115 of the source, per element: `([lon, lat]) => [lat, lon]`. -/
def optPairElem (e : JVal) : Except Unit RoutePt :=
  match destructure2 e with
  | .ok lv => .ok (lv.2, lv.1)
  | .error u => .error u

/-- Line 117 of the source, per element: `p => [p.lat, p.lng]`;
property access on a null/undefined element throws. -/
def optObjElem (p : JVal) : Except Unit RoutePt :=
  match jsFieldE p "lat", jsFieldE p "lng" with
  | .ok la, .ok ln => .ok (la, ln)
  | .error u, _ => .error u
  | .ok _, .error u => .error u

/-- Lines 107-127 of the source: the optimized-route normalization.
An empty geometry gives the empty route; a first element that is an
array selects pair-destructuring for every element; otherwise a first
element whose lat property is a number selects object extraction for
every element; any other first element gives the empty route; a thrown
exception lands in the catch handler that stores the empty route. -/
def optNormalize (json : JVal) : List RoutePt :=
  match geometryOf json with
  | .arr [] => []
  | .arr (h :: t) =>
    (match h with
     | .arr _ =>
       (match tryMap optPairElem (h :: t) with
        | .ok r => r
        | .error _ => [])
     | _ =>
       (match jsFieldE h "lat" with
        | .error _ => []
        | .ok (.num _) =>
          (match tryMap optObjElem (h :: t) with
           | .ok r => r
           | .error _ => [])
        | .ok _ => []))
  | _ => []

/-- Lines 95-105 of the source: the fetchSimRoute callback as a state
update. -/
def fetchSimUpdate (r : Response) (s : CompState) : CompState :=
  match safeJson r routeDefault with
  | .ok json => { s with simRoute := simNormalize json }
  | .error _ => { s with simRoute := [] }

/-- Lines 107-127 of the source: the fetchOptRoute callback as a state
update. -/
def fetchOptUpdate (r : Response) (s : CompState) : CompState :=
  match safeJson r routeDefault with
  | .ok json => { s with optRoute := optNormalize json }
  | .error _ => { s with optRoute := [] }

/-- One full poll cycle (lines 130-132 and 136-138 of the source): the
three fetch callbacks each applied with the response their fetch
resolved with. -/
def pollCycle (rT rS rO : Response) (s : CompState) : CompState :=
  fetchOptUpdate rO (fetchSimUpdate rS (fetchDataUpdate rT s))

/-- What the component renders (lines 144-206 of the source). -/
inductive Render where
  | loadingView
  | errorView (msg : String)
  | noData
  | invalidLocation
  | mapView (lat lng : JNum) (status estDelivery : JVal) (polylines : List (List RoutePt))

/-- `Number.isFinite` on the numeric model. -/
def isFiniteNum : JNum → Bool
  | .fin _ => true
  | _ => false

/-- Truthiness of the error state string, for `if (error)`. -/
def errTruthy (e : Option String) : Bool :=
  match e with
  | some m => m ≠ ""
  | none => false

/-- Lines 144-206 of the source: the render body.  Loading, a truthy
error and a falsy trackingData short-circuit in that order; then the
position is extracted, the finiteness guard selects the degraded
invalid-location output, and otherwise the map is rendered with the
marker position and the optimized-route polyline when non-empty (the
simulated-route polyline block is commented out in the source). -/
def render (s : CompState) : Render :=
  if s.loading then .loadingView
  else if errTruthy s.error then .errorView (s.error.getD "")
  else if ¬ truthy s.trackingData then .noData
  else
    let lat := currentLatitude s.trackingData
    let lng := currentLongitude s.trackingData
    if isFiniteNum lat && isFiniteNum lng then
      .mapView lat lng (currentStatusOf s.trackingData) (estimatedDeliveryOf s.trackingData)
        (if s.optRoute.isEmpty then [] else [s.optRoute])
    else .invalidLocation

/-- The polylines drawn by a rendered output. -/
def polylinesOf : Render → List (List RoutePt)
  | .mapView _ _ _ _ pl => pl
  | _ => []

/-
Polling-session model (lines 78-142 of the source) on the single
event loop: the effect body issues three fetches and starts the
interval; each interval tick issues three more; a fetch that was
issued stays pending until the network delivers its response, at which
point its continuation runs.  The cleanup (line 141) only calls
clearInterval: it does not abort pending fetches, and the fetch
continuations in the source consult no stopped/cancelled flag, so a
delivery applies its state update regardless of whether the timer was
already cleared.
-/

/-- A fetch issued but not yet resolved, with the response the network
will eventually deliver for it. -/
inductive Pending where
  | ptrack (r : Response)
  | psim (r : Response)
  | popt (r : Response)

/-- Running the continuation of a resolved fetch (the body of
fetchData / fetchSimRoute / fetchOptRoute after its await). -/
def applyPending : Pending → CompState → CompState
  | .ptrack r, s => fetchDataUpdate r s
  | .psim r, s => fetchSimUpdate r s
  | .popt r, s => fetchOptUpdate r s

/-- The state of one mounted effect: the component state, whether the
interval is still registered, and the fetches in flight. -/
structure SessState where
  comp : CompState
  timerActive : Bool
  pending : List Pending

/-- Events of a session execution.  `effectStart` is the effect body
(initial fetches, then setInterval); `tick` is the interval callback,
which fires only while the interval is registered; `deliver i` resolves
the i-th pending fetch and runs its continuation; `cleanup` is the
effect cleanup, which only clears the interval. -/
inductive SessEvent where
  | effectStart (rT rS rO : Response)
  | tick (rT rS rO : Response)
  | deliver (i : Nat)
  | cleanup

/-- One step of the session model.  Note that `deliver` updates the
component state unconditionally: the source guards fetch continuations
with no stopped flag. -/
def stepSess (s : SessState) : SessEvent → SessState
  | .effectStart rT rS rO =>
    { s with timerActive := true,
             pending := s.pending ++ [.ptrack rT, .psim rS, .popt rO] }
  | .tick rT rS rO =>
    if s.timerActive then
      { s with pending := s.pending ++ [.ptrack rT, .psim rS, .popt rO] }
    else s
  | .deliver i =>
    (match s.pending[i]? with
     | some p => { comp := applyPending p s.comp,
                   timerActive := s.timerActive,
                   pending := s.pending.eraseIdx i }
     | none => s)
  | .cleanup => { s with timerActive := false }

/-- A session execution from the freshly mounted state. -/
def runSess (evs : List SessEvent) : SessState :=
  evs.foldl stepSess { comp := initialState, timerActive := false, pending := [] }

/-
Effect/timer lifecycle model (lines 78-142 of the source, under the
React effect contract: before an effect re-runs for changed
dependencies, and on unmount, the previously returned cleanup runs
first).  Interval handles are numbered by creation order.
-/

/-- Timer bookkeeping for one mounted component: the set of live
interval handles, a fresh-handle counter, and the handle captured by
the currently registered cleanup, if any. -/
structure TimerState where
  timers : List Nat
  nextId : Nat
  cleanupHandle : Option Nat

/-- The effect body of the source for a given shipmentId prop: a falsy
shipmentId returns early, creating no interval and registering no
cleanup; otherwise setInterval creates a fresh handle and the returned
cleanup captures it. -/
def runShipEffect (shipmentId : Option String) (s : TimerState) : TimerState :=
  match shipmentId with
  | none => { s with cleanupHandle := none }
  | some sid =>
    if sid = "" then { s with cleanupHandle := none }
    else
      { timers := s.timers ++ [s.nextId],
        nextId := s.nextId + 1,
        cleanupHandle := some s.nextId }

/-- Running the registered cleanup, when there is one: line 141,
`clearInterval(intervalId)` on the captured handle. -/
def runShipCleanup (s : TimerState) : TimerState :=
  match s.cleanupHandle with
  | some i => { s with timers := s.timers.erase i, cleanupHandle := none }
  | none => s

/-- Lifecycle events of one mounted component: a (possibly changed)
shipmentId prop triggering the effect, or unmount. -/
inductive MountEvent where
  | setProps (shipmentId : Option String)
  | unmount

/-- One lifecycle step under the React effect contract: the previous
cleanup runs before the next effect body, and on unmount. -/
def stepMount (s : TimerState) : MountEvent → TimerState
  | .setProps sid => runShipEffect sid (runShipCleanup s)
  | .unmount => runShipCleanup s

/-- A component lifetime from mount. -/
def runMount (evs : List MountEvent) : TimerState :=
  evs.foldl stepMount { timers := [], nextId := 0, cleanupHandle := none }

/-- A route payload whose geometry is a sequence of two-element
position arrays. -/
def pairJson (ps : List RoutePt) : JVal :=
  .obj [("geometry", .arr (ps.map (fun p => .arr [p.1, p.2])))]

/-- `Array.isArray`. -/
def isArrV : JVal → Bool
  | .arr _ => true
  | _ => false

/-- The check `typeof e.lat === 'number'` on one geometry element,
false also when the property access would throw. -/
def latIsNumber (e : JVal) : Bool :=
  match jsFieldE e "lat" with
  | .ok (.num _) => true
  | _ => false

lemma geometryOf_pairJson (ps : List RoutePt) :
    geometryOf (pairJson ps) = .arr (ps.map (fun p => .arr [p.1, p.2])) := rfl

lemma tryMap_sim_pairs (ps : List RoutePt) :
    tryMap simMapElem (ps.map (fun p => .arr [p.1, p.2])) = .ok (ps.map (fun p => (p.2, p.1))) := by
  induction ps with
  | nil => rfl
  | cons p t ih => simp [tryMap, simMapElem, ih]

lemma tryMap_opt_pairs (ps : List RoutePt) :
    tryMap optPairElem (ps.map (fun p => .arr [p.1, p.2])) = .ok (ps.map (fun p => (p.2, p.1))) := by
  induction ps with
  | nil => rfl
  | cons p t ih => simp [tryMap, optPairElem, destructure2, ih]

/-- Claim C3: for every route payload whose geometry is an ordered
sequence of two-element [longitude, latitude] pairs, both route
normalizations return the same points with each pair swapped to
[latitude, longitude], preserving order and length; in particular the
payload with geometry [[-74.0, 40.7], [-73.9, 40.8]] normalizes to
[[40.7, -74.0], [40.8, -73.9]]. -/
theorem C3_pair_geometry_swapped :
    (∀ ps : List RoutePt,
      simNormalize (pairJson ps) = ps.map (fun p => (p.2, p.1)) ∧
      optNormalize (pairJson ps) = ps.map (fun p => (p.2, p.1))) ∧
    optNormalize (.obj [("geometry", .arr
        [.arr [.num (.fin (-74)), .num (.fin (407/10))],
         .arr [.num (.fin (-739/10)), .num (.fin (408/10))]])]) =
      [(.num (.fin (407/10)), .num (.fin (-74))),
       (.num (.fin (408/10)), .num (.fin (-739/10)))] := by
  refine ⟨fun ps => ⟨?_, ?_⟩, rfl⟩
  · simp [simNormalize, geometryOf_pairJson, tryMap_sim_pairs]
  · cases ps with
    | nil => rfl
    | cons p t =>
      have h := tryMap_opt_pairs (p :: t)
      simp only [List.map_cons] at h
      simp [optNormalize, geometryOf_pairJson, h]

/-- Claim C5 counterexample: the element of the payload with geometry
[{}] matches neither recognized convention, yet the simulated-route
normalization yields a non-empty route holding an entry derived from
that element, not the empty route. -/
theorem C5_cex_sim_emits_undefined_entry :
    isArrV (.obj []) = false ∧ latIsNumber (.obj []) = false ∧
    simNormalize (.obj [("geometry", .arr [.obj []])]) = [(.undefVal, .undefVal)] ∧
    [((.undefVal : JVal), (.undefVal : JVal))] ≠ ([] : List RoutePt) := by
  refine ⟨rfl, rfl, rfl, by simp⟩

/-- Claim C5 amended: for a geometry whose first element matches
neither recognized convention, the optimized-route normalization
yields the empty route without emitting entries; the simulated-route
normalization instead treats each non-array element as a labeled
object, so an unrecognized object element yields an entry of undefined
coordinates rather than the empty route. -/
lemma simMapElem_nonarr {e : JVal} (hA : isArrV e = false)
    (hn : e ≠ .jnull) (hu : e ≠ .undefVal) :
    simMapElem e = .ok (getProp e "lat", getProp e "lng") := by
  cases e with
  | arr xs => simp [isArrV] at hA
  | jnull => exact absurd rfl hn
  | undefVal => exact absurd rfl hu
  | num n => rfl
  | str s => rfl
  | bool b => rfl
  | obj fs => rfl

lemma tryMap_sim_nonarr (es : List JVal)
    (h : ∀ e ∈ es, isArrV e = false ∧ e ≠ .jnull ∧ e ≠ .undefVal) :
    tryMap simMapElem es = .ok (es.map (fun e => (getProp e "lat", getProp e "lng"))) := by
  induction es with
  | nil => rfl
  | cons x xs ih =>
    obtain ⟨hA, hn, hu⟩ := h x (by simp)
    have hx := simMapElem_nonarr hA hn hu
    have hxs := ih (fun e he => h e (by simp [he]))
    simp [tryMap, hx, hxs]

lemma tryMap_sim_throwing (es : List JVal)
    (h : ∃ e ∈ es, e = JVal.jnull ∨ e = JVal.undefVal) :
    tryMap simMapElem es = .error () := by
  induction es with
  | nil => simp at h
  | cons x xs ih =>
    obtain ⟨e, he, hor⟩ := h
    rcases List.mem_cons.mp he with rfl | hmem
    · rcases hor with rfl | rfl <;> rfl
    · have hxs := ih ⟨e, hmem, hor⟩
      cases hx : simMapElem x <;> simp [tryMap, hx, hxs]

/-- Claim C5 amended: for a route geometry whose elements match
neither recognized convention, the optimized-route normalization
(which inspects the first element) yields the empty route; the
simulated-route normalization instead treats every non-array element
as a labeled object, emitting for each one the entry of its lat/lng
properties (undefined coordinates for unrecognized objects), and
yields the empty route only when some element access throws (a null
or undefined element). -/
theorem C5_amended_opt_empty_sim_emits :
    (∀ (h : JVal) (t : List JVal), isArrV h = false → latIsNumber h = false →
      optNormalize (.obj [("geometry", .arr (h :: t))]) = []) ∧
    (∀ es : List JVal, (∀ e ∈ es, isArrV e = false ∧ e ≠ .jnull ∧ e ≠ .undefVal) →
      simNormalize (.obj [("geometry", .arr es)]) =
        es.map (fun e => (getProp e "lat", getProp e "lng"))) ∧
    (∀ es : List JVal, (∃ e ∈ es, e = JVal.jnull ∨ e = JVal.undefVal) →
      simNormalize (.obj [("geometry", .arr es)]) = []) := by
  refine ⟨fun h t hA hL => ?_, fun es hes => ?_, fun es hes => ?_⟩
  · cases h with
    | arr xs => simp [isArrV] at hA
    | jnull => rfl
    | undefVal => rfl
    | num n => rfl
    | str s => rfl
    | bool b => rfl
    | obj fs =>
      rcases hv : (fs.lookup "lat").getD JVal.undefVal with n | s | b | _ | _ | xs | gs
      · simp [latIsNumber, jsFieldE, getProp, hv] at hL
      all_goals simp [optNormalize, geometryOf, jsFieldE, getProp, truthy, hv]
  · have hg : geometryOf (.obj [("geometry", .arr es)]) = .arr es := rfl
    simp [simNormalize, hg, tryMap_sim_nonarr es hes]
  · have hg : geometryOf (.obj [("geometry", .arr es)]) = .arr es := rfl
    simp [simNormalize, hg, tryMap_sim_throwing es hes]

/-- Claim C5 amended, witnessed at concrete inputs: the unrecognized
element, the empty object, gives the empty optimized route but a
one-entry simulated route of undefined coordinates, while a null
element (whose property access throws) gives the empty simulated
route. -/
theorem C5_amended_witness :
    isArrV (.obj []) = false ∧ latIsNumber (.obj []) = false ∧
    optNormalize (.obj [("geometry", .arr [.obj []])]) = [] ∧
    simNormalize (.obj [("geometry", .arr [.obj []])]) = [(.undefVal, .undefVal)] ∧
    simNormalize (.obj [("geometry", .arr [.jnull])]) = [] :=
  ⟨rfl, rfl, C5_amended_opt_empty_sim_emits.1 (.obj []) [] rfl rfl,
   by
    have h := C5_amended_opt_empty_sim_emits.2.1 [.obj []]
      (by intro e he; simp at he; subst he; exact ⟨rfl, by simp, by simp⟩)
    rw [h]; rfl,
   C5_amended_opt_empty_sim_emits.2.2 [.jnull] ⟨.jnull, by simp, Or.inl rfl⟩⟩

/-- The numeric latitude field candidates, in the priority order of
lines 150-153 of the source. -/
def latNumericNames : List String :=
  ["CurrentLatitude", "CurrentLat", "latitude", "Latitude"]

/-- The numeric longitude field candidates, in the priority order of
lines 160-163 of the source. -/
def lngNumericNames : List String :=
  ["CurrentLongitude", "CurrentLng", "longitude", "Longitude"]

lemma parseFloat_empty : parseFloat "" = .nan := rfl

lemma parseFloat_forty : parseFloat "40" = .fin 40 := by
  show parseFloatCore ['4', '0'] = .fin 40
  simp [parseFloatCore, parseExponent, digitsToNat, List.takeWhile, List.dropWhile]

lemma parseFloat_two : parseFloat "2" = .fin 2 := by
  show parseFloatCore ['2'] = .fin 2
  simp [parseFloatCore, parseExponent, digitsToNat, List.takeWhile, List.dropWhile]

lemma parseFloat_fin_ne_empty {s : String} {v : ℚ} (h : parseFloat s = .fin v) : s ≠ "" := by
  intro hs
  rw [hs, parseFloat_empty] at h
  exact JNum.noConfusion h

/-- Claim C2: a tracking payload supplying latitude and longitude each
under any single accepted field-name variant (one of the four numeric
candidate names, or the primary name carrying a numeric string)
normalizes to the identical canonical position, whichever variant
carried each value. -/
theorem C2_variant_independent_snapshot (v w : ℚ) :
    (∀ ln ∈ latNumericNames, ∀ gn ∈ lngNumericNames,
      posOf (.obj [(ln, .num (.fin v)), (gn, .num (.fin w))]) = (.fin v, .fin w)) ∧
    (∀ s t : String, parseFloat s = .fin v → parseFloat t = .fin w →
      posOf (.obj [("CurrentLatitude", .str s), ("CurrentLongitude", .str t)]) = (.fin v, .fin w)) ∧
    (∀ ln ∈ latNumericNames, ∀ t : String, parseFloat t = .fin w →
      posOf (.obj [(ln, .num (.fin v)), ("CurrentLongitude", .str t)]) = (.fin v, .fin w)) ∧
    (∀ s : String, parseFloat s = .fin v → ∀ gn ∈ lngNumericNames,
      posOf (.obj [("CurrentLatitude", .str s), (gn, .num (.fin w))]) = (.fin v, .fin w)) := by
  refine ⟨?_, ?_, ?_, ?_⟩
  · intro ln hln gn hgn
    fin_cases hln <;> fin_cases hgn <;> rfl
  · intro s t hs ht
    have hs0 := parseFloat_fin_ne_empty hs
    have ht0 := parseFloat_fin_ne_empty ht
    simp [posOf, currentLatitude, currentLongitude, getProp, List.lookup, hs0, ht0, hs, ht]
  · intro ln hln t ht
    have ht0 := parseFloat_fin_ne_empty ht
    fin_cases hln <;>
      simp [posOf, currentLatitude, currentLongitude, getProp, List.lookup, ht0, ht]
  · intro s hs gn hgn
    have hs0 := parseFloat_fin_ne_empty hs
    fin_cases hgn <;>
      simp [posOf, currentLatitude, currentLongitude, getProp, List.lookup, hs0, hs]

/-- Claim C2, witnessed: the alternate-cased aliases and the
numeric-string variant of a concrete position both normalize to that
same position. -/
theorem C2_variant_witness :
    posOf (.obj [("CurrentLat", .num (.fin 40)), ("Longitude", .num (.fin 2))]) = (.fin 40, .fin 2) ∧
    posOf (.obj [("CurrentLatitude", .str "40"), ("CurrentLongitude", .str "2")]) = (.fin 40, .fin 2) :=
  ⟨(C2_variant_independent_snapshot 40 2).1 "CurrentLat" (by simp [latNumericNames])
      "Longitude" (by simp [lngNumericNames]),
   (C2_variant_independent_snapshot 40 2).2.1 "40" "2" parseFloat_forty parseFloat_two⟩

/-- No accepted latitude field name is present in the payload. -/
def noLatField (fs : List (String × JVal)) : Prop :=
  fs.lookup "CurrentLatitude" = none ∧ fs.lookup "CurrentLat" = none ∧
  fs.lookup "latitude" = none ∧ fs.lookup "Latitude" = none

/-- No accepted longitude field name is present in the payload. -/
def noLngField (fs : List (String × JVal)) : Prop :=
  fs.lookup "CurrentLongitude" = none ∧ fs.lookup "CurrentLng" = none ∧
  fs.lookup "longitude" = none ∧ fs.lookup "Longitude" = none

lemma currentLatitude_of_noLatField {fs : List (String × JVal)} (h : noLatField fs) :
    currentLatitude (.obj fs) = .nan := by
  obtain ⟨h1, h2, h3, h4⟩ := h
  simp [currentLatitude, getProp, h1, h2, h3, h4]

lemma currentLongitude_of_noLngField {fs : List (String × JVal)} (h : noLngField fs) :
    currentLongitude (.obj fs) = .nan := by
  obtain ⟨h1, h2, h3, h4⟩ := h
  simp [currentLongitude, getProp, h1, h2, h3, h4]

/-- Claim C6: a non-null tracking payload carrying no accepted
latitude field and no accepted longitude field renders the degraded
invalid-location output, and the map marker is only ever constructed
with finite coordinates. -/
theorem C6_missing_fields_invalid_location :
    (∀ (fs : List (String × JVal)) (sr orr : List RoutePt),
      noLatField fs → noLngField fs →
      render { trackingData := .obj fs, loading := false, error := none,
               simRoute := sr, optRoute := orr } = .invalidLocation) ∧
    (∀ (s : CompState) (lat lng : JNum) (st ed : JVal) (pl : List (List RoutePt)),
      render s = .mapView lat lng st ed pl →
      isFiniteNum lat = true ∧ isFiniteNum lng = true) := by
  constructor
  · intro fs sr orr hLat hLng
    simp [render, errTruthy, truthy, currentLatitude_of_noLatField hLat,
      currentLongitude_of_noLngField hLng, isFiniteNum]
  · intro s lat lng st ed pl h
    by_cases hL : s.loading
    · simp [render, hL] at h
    · by_cases hE : errTruthy s.error
      · simp [render, hL, hE] at h
      · by_cases hT : truthy s.trackingData
        · cases hF : (isFiniteNum (currentLatitude s.trackingData) &&
              isFiniteNum (currentLongitude s.trackingData)) with
          | false => simp [render, hL, hE, hT, hF] at h
          | true =>
            simp [render, hL, hE, hT, hF] at h
            have hF' := hF
            simp only [Bool.and_eq_true] at hF'
            exact ⟨h.1 ▸ hF'.1, h.2.1 ▸ hF'.2⟩
        · simp [render, hL, hE, hT] at h

/-- Claim C6, witnessed: a payload holding only an unrelated field
renders the invalid-location output, and a concrete rendered map has
finite marker coordinates. -/
theorem C6_missing_fields_witness :
    render { trackingData := .obj [("foo", .num (.fin 1))], loading := false, error := none,
             simRoute := [], optRoute := [] } = .invalidLocation ∧
    (isFiniteNum (.fin 40) = true ∧ isFiniteNum (.fin 2) = true) :=
  ⟨C6_missing_fields_invalid_location.1 [("foo", .num (.fin 1))] [] []
      ⟨rfl, rfl, rfl, rfl⟩ ⟨rfl, rfl, rfl, rfl⟩,
   C6_missing_fields_invalid_location.2
      { trackingData := .obj [("CurrentLatitude", .num (.fin 40)), ("CurrentLongitude", .num (.fin 2))],
        loading := false, error := none, simRoute := [], optRoute := [] }
      (.fin 40) (.fin 2) .jnull .jnull [] rfl⟩

/-- The response body used by the C8 counterexample: 201 characters,
one longer than the only truncation bound appearing in the source. -/
def longBody : String := String.mk (List.replicate 201 'a')

set_option maxRecDepth 8000 in
/-- Claim C8 counterexample: a 500 response whose body exceeds the
200-character truncation bound is rejected with the whole body as the
message, untruncated, so the error payload is not bounded by the
truncation length. -/
theorem C8_cex_full_body_in_error :
    safeJson { status := 500, contentType := "", body := longBody, json := .jnull } .jnull
      = .error longBody ∧
    200 < longBody.length ∧ longBody.take 200 ≠ longBody := by
  refine ⟨rfl, by decide, by decide⟩

/-- Claim C8 amended: for a non-success status other than 404, safeJson
rejects with the untruncated response body (or a fixed message when
the body is empty); the 200-character truncation applies only to the
successful-status wrong-content-type branch. -/
theorem C8_amended_untruncated_transport_error :
    (∀ (r : Response) (d : JVal), r.status ≠ 404 → ¬ (200 ≤ r.status ∧ r.status ≤ 299) →
      r.body ≠ "" → safeJson r d = .error r.body) ∧
    (∀ (r : Response) (d : JVal), r.status ≠ 404 → ¬ (200 ≤ r.status ∧ r.status ≤ 299) →
      r.body = "" → safeJson r d = .error "Network response was not ok") ∧
    (∀ (r : Response) (d : JVal), 200 ≤ r.status → r.status ≤ 299 →
      strIncludes r.contentType "application/json" = false →
      safeJson r d = .error ("Expected JSON but got: " ++ r.body.take 200)) := by
  refine ⟨?_, ?_, ?_⟩
  · intro r d h404 hok hbody
    simp [safeJson, h404, hok, hbody]
  · intro r d h404 hok hbody
    simp [safeJson, h404, hok, hbody]
  · intro r d h2 h3 hct
    have h404 : r.status ≠ 404 := by omega
    simp [safeJson, h404, h2, h3, hct]

/-- Claim C8 amended, witnessed at concrete responses: a 500 with body
boom rejects with exactly boom, and a 200 with markup content type
rejects with the truncated-body schema message. -/
theorem C8_amended_witness :
    safeJson { status := 500, contentType := "", body := "boom", json := .jnull } .jnull
      = .error "boom" ∧
    safeJson { status := 200, contentType := "text/html", body := "x", json := .jnull } .jnull
      = .error ("Expected JSON but got: " ++ ("x" : String).take 200) :=
  ⟨C8_amended_untruncated_transport_error.1 _ _ (by decide) (by decide) (by decide),
   C8_amended_untruncated_transport_error.2.2 _ _ (by decide) (by decide) (by decide)⟩

/-- A concrete successful tracking response with a valid position
payload, shared by several witnesses. -/
def goodTrackResp : Response :=
  { status := 200, contentType := "application/json", body := "x",
    json := .obj [("CurrentLatitude", .num (.fin 40)), ("CurrentLongitude", .num (.fin 2))] }

set_option maxRecDepth 4000 in
lemma safeJson_goodTrackResp : safeJson goodTrackResp .jnull = .ok goodTrackResp.json := rfl

/-- Claim C9: a 404 from the tracking endpoint after a previously
successful poll replaces the stored tracking state by null and the
component renders the no-tracking-data message, not the last valid
snapshot. -/
theorem C9_404_resets_tracking_state :
    ∀ (s : CompState) (r1 r2 : Response) (j : JVal),
      safeJson r1 .jnull = .ok j → truthy j = true → s.error = none → r2.status = 404 →
      (fetchDataUpdate r2 (fetchDataUpdate r1 s)).trackingData = .jnull ∧
      render (fetchDataUpdate r2 (fetchDataUpdate r1 s)) = .noData := by
  intro s r1 r2 j h1 _ hserr h404
  have hs1 : fetchDataUpdate r1 s =
      { s with trackingData := j, loading := false } := by
    simp [fetchDataUpdate, h1]
  have hs2 : safeJson r2 .jnull = .ok .jnull := by
    simp [safeJson, h404]
  rw [hs1]
  constructor
  · simp [fetchDataUpdate, hs2]
  · simp [fetchDataUpdate, hs2, render, errTruthy, hserr, truthy]

/-- Claim C9, witnessed: after a concrete successful poll, a concrete
404 leaves null tracking state and the no-data message. -/
theorem C9_404_witness :
    (fetchDataUpdate { status := 404, contentType := "", body := "", json := .jnull }
      (fetchDataUpdate goodTrackResp initialState)).trackingData = .jnull ∧
    render (fetchDataUpdate { status := 404, contentType := "", body := "", json := .jnull }
      (fetchDataUpdate goodTrackResp initialState)) = .noData :=
  C9_404_resets_tracking_state initialState goodTrackResp
    { status := 404, contentType := "", body := "", json := .jnull }
    goodTrackResp.json safeJson_goodTrackResp rfl rfl rfl

set_option maxRecDepth 4000 in
/-- Claim C4 counterexample: a failed tracking fetch followed by a
successful one leaves the error state set and the component still
rendering the error view, not the map: the error state is never
cleared. -/
theorem C4_cex_error_persists_after_success :
    (fetchDataUpdate goodTrackResp
      (fetchDataUpdate { status := 500, contentType := "", body := "boom", json := .jnull }
        initialState)).error = some "boom" ∧
    render (fetchDataUpdate goodTrackResp
      (fetchDataUpdate { status := 500, contentType := "", body := "boom", json := .jnull }
        initialState)) = .errorView "boom" :=
  ⟨rfl, rfl⟩

/-- Claim C4 amended: after a tracking fetch failure, polling continues
and a later successful tracking fetch still stores the fresh payload
and keeps loading false, but no fetch callback ever clears the error
state, so the view keeps rendering the error message instead of
returning to the map. -/
theorem C4_amended_error_never_cleared :
    (∀ (r : Response) (s : CompState), (fetchDataUpdate r s).error = none → s.error = none) ∧
    (∀ (r : Response) (s : CompState),
      (fetchSimUpdate r s).error = s.error ∧ (fetchOptUpdate r s).error = s.error) ∧
    (∀ (r : Response) (s : CompState) (j : JVal), safeJson r .jnull = .ok j →
      (fetchDataUpdate r s).error = s.error ∧ (fetchDataUpdate r s).trackingData = j ∧
      (fetchDataUpdate r s).loading = false) ∧
    (∀ (s : CompState) (m : String), s.loading = false → s.error = some m → m ≠ "" →
      render s = .errorView m) := by
  refine ⟨?_, ?_, ?_, ?_⟩
  · intro r s h
    cases hj : safeJson r .jnull with
    | ok j => simp [fetchDataUpdate, hj] at h; exact h
    | error m => simp [fetchDataUpdate, hj] at h
  · intro r s
    constructor
    · cases hj : safeJson r routeDefault <;> simp [fetchSimUpdate, hj]
    · cases hj : safeJson r routeDefault <;> simp [fetchOptUpdate, hj]
  · intro r s j hj
    simp [fetchDataUpdate, hj]
  · intro s m hl he hm
    simp [render, hl, errTruthy, he, hm]

/-- Claim C4 amended, witnessed: a concrete successful fetch preserves
a previously set error, and the error view is rendered. -/
theorem C4_amended_witness :
    ((fetchDataUpdate goodTrackResp
        { trackingData := .jnull, loading := false, error := some "boom",
          simRoute := [], optRoute := [] }).error = some "boom" ∧
     (fetchDataUpdate goodTrackResp
        { trackingData := .jnull, loading := false, error := some "boom",
          simRoute := [], optRoute := [] }).trackingData = goodTrackResp.json ∧
     (fetchDataUpdate goodTrackResp
        { trackingData := .jnull, loading := false, error := some "boom",
          simRoute := [], optRoute := [] }).loading = false) ∧
    render { trackingData := .jnull, loading := false, error := some "boom",
             simRoute := [], optRoute := [] } = .errorView "boom" :=
  ⟨C4_amended_error_never_cleared.2.2.1 goodTrackResp
      { trackingData := .jnull, loading := false, error := some "boom",
        simRoute := [], optRoute := [] } goodTrackResp.json safeJson_goodTrackResp,
   C4_amended_error_never_cleared.2.2.2
      { trackingData := .jnull, loading := false, error := some "boom",
        simRoute := [], optRoute := [] } "boom" rfl rfl (by decide)⟩

lemma polylinesOf_render (s : CompState) :
    polylinesOf (render s) = [] ∨
    (s.optRoute ≠ [] ∧ polylinesOf (render s) = [s.optRoute]) := by
  by_cases hL : s.loading
  · left; simp [render, hL, polylinesOf]
  · by_cases hE : errTruthy s.error
    · left; simp [render, hL, hE, polylinesOf]
    · by_cases hT : truthy s.trackingData
      · cases hF : (isFiniteNum (currentLatitude s.trackingData) &&
            isFiniteNum (currentLongitude s.trackingData)) with
        | false => left; simp [render, hL, hE, hT, hF, polylinesOf]
        | true =>
          cases hO : s.optRoute.isEmpty with
          | true => left; simp [render, hL, hE, hT, hF, hO, polylinesOf]
          | false =>
            right
            refine ⟨by simpa using hO, ?_⟩
            simp [render, hL, hE, hT, hF, hO, polylinesOf]
      · left; simp [render, hL, hE, hT, polylinesOf]

/-- Claim C10: every poll cycle stores the normalized simulated route
in component state, yet every polyline in the rendered output is the
optimized route: the simulated route is never drawn. -/
theorem C10_sim_route_stored_never_drawn :
    (∀ (rT rS rO : Response) (s : CompState),
      (pollCycle rT rS rO s).simRoute =
        (match safeJson rS routeDefault with
         | .ok j => simNormalize j
         | .error _ => [])) ∧
    (∀ (s : CompState) (l : List RoutePt),
      l ∈ polylinesOf (render s) → l = s.optRoute ∧ s.optRoute ≠ []) := by
  constructor
  · intro rT rS rO s
    cases hO : safeJson rO routeDefault <;> cases hS : safeJson rS routeDefault <;>
      simp [pollCycle, fetchOptUpdate, fetchSimUpdate, hO, hS]
  · intro s l hl
    rcases polylinesOf_render s with h | ⟨hne, h⟩
    · rw [h] at hl; simp at hl
    · rw [h] at hl
      simp at hl
      exact ⟨hl, hne⟩

/-- Claim C10, witnessed: a concrete cycle stores the simulated route,
and in a concrete rendered map the only polyline is the optimized
route. -/
theorem C10_witness :
    (pollCycle goodTrackResp { status := 404, contentType := "", body := "", json := .jnull }
        { status := 404, contentType := "", body := "", json := .jnull } initialState).simRoute
      = [] ∧
    ([((.num (.fin 3) : JVal), (.num (.fin 4) : JVal))] =
        ({ trackingData := goodTrackResp.json, loading := false, error := none,
           simRoute := [], optRoute := [(.num (.fin 3), .num (.fin 4))] } : CompState).optRoute ∧
      ({ trackingData := goodTrackResp.json, loading := false, error := none,
         simRoute := [], optRoute := [(.num (.fin 3), .num (.fin 4))] } : CompState).optRoute ≠ []) := by
  constructor
  · have h := C10_sim_route_stored_never_drawn.1 goodTrackResp
      { status := 404, contentType := "", body := "", json := .jnull }
      { status := 404, contentType := "", body := "", json := .jnull } initialState
    rw [h]
    rfl
  · exact C10_sim_route_stored_never_drawn.2
      { trackingData := goodTrackResp.json, loading := false, error := none,
        simRoute := [], optRoute := [(.num (.fin 3), .num (.fin 4))] }
      [(.num (.fin 3), .num (.fin 4))] (by rw [show render { trackingData := goodTrackResp.json, loading := false, error := none, simRoute := [], optRoute := [((.num (.fin 3) : JVal), (.num (.fin 4) : JVal))] } = .mapView (.fin 40) (.fin 2) .jnull .jnull [[(.num (.fin 3), .num (.fin 4))]] from rfl]; simp [polylinesOf])

set_option maxRecDepth 4000 in
/-- Claim C1, refuted by the code: in the session model, after the
effect issues its fetches and the cleanup runs (stop), delivering the
already-issued tracking fetch still mutates the component state,
because the cleanup only clears the interval and the fetch
continuations carry no stopped guard. -/
theorem C1_inflight_fetch_mutates_after_stop :
    (runSess [.effectStart goodTrackResp goodTrackResp goodTrackResp, .cleanup]).timerActive
      = false ∧
    (runSess [.effectStart goodTrackResp goodTrackResp goodTrackResp, .cleanup]).comp.trackingData
      = .jnull ∧
    (runSess [.effectStart goodTrackResp goodTrackResp goodTrackResp, .cleanup,
        .deliver 0]).comp.trackingData = goodTrackResp.json ∧
    (runSess [.effectStart goodTrackResp goodTrackResp goodTrackResp, .cleanup]).comp.loading
      = true ∧
    (runSess [.effectStart goodTrackResp goodTrackResp goodTrackResp, .cleanup,
        .deliver 0]).comp.loading = false ∧
    goodTrackResp.json ≠ .jnull :=
  ⟨rfl, rfl, rfl, rfl, rfl, by simp [goodTrackResp]⟩

/-- The invariant tying the live interval handles to the registered
cleanup: the cleanup, when present, captures exactly the one live
handle, which is below the fresh-handle counter. -/
def timerInv (s : TimerState) : Prop :=
  (s.timers = match s.cleanupHandle with | some i => [i] | none => []) ∧
  (∀ j, s.cleanupHandle = some j → j < s.nextId)

lemma runShipCleanup_inv (s : TimerState) (h : timerInv s) :
    timerInv (runShipCleanup s) ∧ (runShipCleanup s).timers = [] := by
  obtain ⟨h1, h2⟩ := h
  cases hc : s.cleanupHandle with
  | none =>
    rw [hc] at h1
    refine ⟨⟨?_, ?_⟩, ?_⟩ <;> simp [runShipCleanup, hc, h1]
  | some i =>
    rw [hc] at h1
    refine ⟨⟨?_, ?_⟩, ?_⟩ <;> simp [runShipCleanup, hc, h1]

lemma runShipEffect_inv (sid : Option String) (s : TimerState) (h0 : s.timers = []) :
    timerInv (runShipEffect sid s) := by
  cases sid with
  | none => refine ⟨?_, ?_⟩ <;> simp [runShipEffect, h0]
  | some str =>
    by_cases hstr : str = ""
    · refine ⟨?_, ?_⟩ <;> simp [runShipEffect, hstr, h0]
    · refine ⟨?_, ?_⟩ <;> simp [runShipEffect, hstr, h0]

lemma stepMount_inv (s : TimerState) (e : MountEvent) (h : timerInv s) :
    timerInv (stepMount s e) := by
  cases e with
  | unmount => exact (runShipCleanup_inv s h).1
  | setProps sid => exact runShipEffect_inv sid _ (runShipCleanup_inv s h).2

lemma runMount_inv (evs : List MountEvent) : timerInv (runMount evs) := by
  have hfold : ∀ (l : List MountEvent) (s : TimerState),
      timerInv s → timerInv (l.foldl stepMount s) := by
    intro l
    induction l with
    | nil => intro s hs; exact hs
    | cons e t ih => intro s hs; exact ih _ (stepMount_inv s e hs)
  exact hfold evs _ ⟨rfl, by simp⟩

/-- Claim C7: along every lifecycle of a mounted component, at most one
interval timer is live, and a change of the tracked subject retires the
previous timer: the old handle is gone from the live set as soon as the
new effect has run. -/
theorem C7_at_most_one_timer :
    (∀ evs : List MountEvent, (runMount evs).timers.length ≤ 1) ∧
    (∀ (evs : List MountEvent) (sid : Option String) (i : Nat),
      (runMount evs).cleanupHandle = some i →
      i ∉ (stepMount (runMount evs) (.setProps sid)).timers) := by
  constructor
  · intro evs
    obtain ⟨h1, _⟩ := runMount_inv evs
    cases hc : (runMount evs).cleanupHandle with
    | none => rw [hc] at h1; simp [h1]
    | some i => rw [hc] at h1; simp [h1]
  · intro evs sid i hc
    obtain ⟨h1, h2⟩ := runMount_inv evs
    have hfresh := h2 i hc
    rw [hc] at h1
    cases sid with
    | none => simp [stepMount, runShipCleanup, hc, runShipEffect, h1]
    | some str =>
      by_cases hstr : str = ""
      · simp [stepMount, runShipCleanup, hc, runShipEffect, hstr, h1]
      · simp [stepMount, runShipCleanup, hc, runShipEffect, hstr, h1]
        omega

/-- Claim C7, witnessed: after a concrete mount and subject switch,
exactly one timer is live and the first timer handle is retired. -/
theorem C7_witness :
    (runMount [.setProps (some "a"), .setProps (some "b")]).timers.length ≤ 1 ∧
    ((runMount [.setProps (some "a")]).cleanupHandle = some 0 ∧
      0 ∉ (stepMount (runMount [.setProps (some "a")]) (.setProps (some "b"))).timers) :=
  ⟨C7_at_most_one_timer.1 [.setProps (some "a"), .setProps (some "b")],
   rfl, C7_at_most_one_timer.2 [.setProps (some "a")] (some "b") 0 rfl⟩

end SmartFreight
